import Mathlib

/-!
Shallow embedding of the assignment-management application
(src/src/models and src/src/controllers) and proofs about its
specification claims.

Modelling conventions:

* SQL tables are Lean lists of records; a database value carries the three
  tables LIEU, EMPLOYE and AFFECTER.
* Text fields are Lean strings.  The Python str.strip used on inputs is
  modelled by a whitespace-trimming function on the underlying character
  list.
* Date columns are stored by the program as YYYY-MM-DD text and are
  compared both through strptime (validation) and through the store's
  lexicographic ORDER BY; on canonical YYYY-MM-DD text the two orders
  coincide, so dates are modelled as naturals in chronological order
  (for seed rows the digits of the date, e.g. 20230115).
* The embedded sqlite engine runs with foreign keys disabled (the source
  sets no pragma), so the only integrity failure a write can raise is a
  primary-key or unique violation; fallible statements return Except.
* A transaction (BEGIN / commit / rollback on exception) is modelled by
  returning the original database value on every failure path.
* An uncaught Python exception (the AttributeError that the assignment
  controller's get_by_id raises, because Assignment.get_assignment exists
  on no class) is modelled by the dedicated outcome
  OpErr.uncaughtAttributeError paired with the unchanged database: the
  method never returns a (success, message) tuple and never writes.
-/

deriving instance DecidableEq for Except

namespace Affectation

/-- Python str.strip on a character list: drop leading and trailing
whitespace. -/
def stripChars (s : List Char) : List Char :=
  ((s.dropWhile Char.isWhitespace).reverse.dropWhile Char.isWhitespace).reverse

/-- Python str.strip lifted to strings. -/
def strip (s : String) : String :=
  String.mk (stripChars s.data)

/-- Row of the LIEU table (models/location.py). -/
structure Location where
  idlieu : String
  design : String
  province : String
  deriving DecidableEq

/-- Row of the EMPLOYE table (models/employee.py); idlieu is the nullable
current-location column. -/
structure Employee where
  numEmp : String
  civilite : String
  nom : String
  prenom : String
  mail : String
  poste : String
  idlieu : Option String
  deriving DecidableEq

/-- Row of the AFFECTER table (models/assignment.py). -/
structure Assignment where
  numAffect : String
  numEmp : String
  AncienLieu : String
  NouveauLieu : String
  dateAffect : Nat
  datePriseService : Nat
  deriving DecidableEq

/-- The three tables owned by the storage gateway (models/database.py). -/
structure DB where
  lieu : List Location
  employe : List Employee
  affecter : List Assignment
  deriving DecidableEq

/-- SELECT * FROM LIEU WHERE idlieu = ? (BaseModel.get for Location). -/
def Location.get (db : DB) (id : String) : Option Location :=
  db.lieu.find? (fun l => decide (l.idlieu = id))

/-- SELECT * FROM EMPLOYE WHERE numEmp = ? (BaseModel.get for Employee). -/
def Employee.get (db : DB) (id : String) : Option Employee :=
  db.employe.find? (fun e => decide (e.numEmp = id))

/-- SELECT * FROM AFFECTER WHERE numAffect = ?. -/
def findAffecter (db : DB) (id : String) : Option Assignment :=
  db.affecter.find? (fun a => decide (a.numAffect = id))

/-- Database.get_assignment (database.py lines 423-437): the assignment row
joined with EMPLOYE and with both LIEU rows, so the row is only returned
when the referenced employee and locations exist.  This is a Database
method; the assignment controller's get_by_id does NOT reach it — see
AssignmentController.update below. -/
def Database.get_assignment (db : DB) (id : String) : Option Assignment :=
  match findAffecter db id with
  | none => none
  | some a =>
    if (Employee.get db a.numEmp).isSome ∧ (Location.get db a.AncienLieu).isSome ∧
        (Location.get db a.NouveauLieu).isSome then
      some a
    else none

/-- Strict comparison of two assignment rows under the store's ordering
ORDER BY dateAffect, datePriseService. -/
def keyLt (a b : Assignment) : Bool :=
  decide (a.dateAffect < b.dateAffect) ||
    (decide (a.dateAffect = b.dateAffect) && decide (a.datePriseService < b.datePriseService))

/-- ORDER BY dateAffect DESC, datePriseService DESC LIMIT 1: the first row
attaining the maximal (dateAffect, datePriseService) key. -/
def latest? (rows : List Assignment) : Option Assignment :=
  rows.foldl
    (fun acc r =>
      match acc with
      | none => some r
      | some m => if keyLt m r then some r else some m)
    none

/-- The most recent assignment row of one employee (the LIMIT 1 query used
by the assignment controller). -/
def latestFor (db : DB) (emp : String) : Option Assignment :=
  latest? (db.affecter.filter (fun a => decide (a.numEmp = emp)))

/-- UPDATE EMPLOYE SET idlieu = ? WHERE numEmp = ?. -/
def setIdlieu (db : DB) (emp : String) (loc : Option String) : DB :=
  { db with
    employe := db.employe.map (fun e => if e.numEmp = emp then { e with idlieu := loc } else e) }

/-- Errors surfaced by the embedded operations, one constructor per failure
branch of the source. -/
inductive VErr
  | numAffectRequired
  | numEmpRequired
  | ancienRequired
  | nouveauRequired
  | sameLocation
  | serviceBeforeAffect
  | futureAffectDate
  deriving DecidableEq

/-- Operation outcomes other than success.  All constructors except the
last model a returned (False, message) pair of the source.  The last,
uncaughtAttributeError, models an AttributeError raised by evaluating a
method name that exists on no class: it is an uncaught Python exception
escaping the controller method, not a returned result. -/
inductive OpErr
  | missingFields
  | invalid (v : VErr)
  | employeeNotFound
  | oldLocationNotFound
  | newLocationNotFound
  | locationMismatch
  | assignmentNotFound
  | integrityError
  | employeeReferenced
  | assignmentReferenced
  | locationNotFound
  | alreadyAssigned
  | uncaughtAttributeError
  deriving DecidableEq

/-- INSERT INTO AFFECTER: fails with an integrity error when the primary
key numAffect already exists (sqlite primary-key constraint; foreign keys
are not enforced). -/
def insertAffecter (db : DB) (a : Assignment) : Except OpErr DB :=
  if db.affecter.any (fun r => decide (r.numAffect = a.numAffect)) then .error .integrityError
  else .ok { db with affecter := db.affecter ++ [a] }

/-- Assignment.validate (models/assignment.py lines 102-135), with the
date-format branch absorbed by the numeric date model and a structured
error in place of each message. -/
def Assignment.validate (a : Assignment) (today : Nat) : Option VErr :=
  if strip a.numAffect = "" then some .numAffectRequired
  else if strip a.numEmp = "" then some .numEmpRequired
  else if strip a.AncienLieu = "" then some .ancienRequired
  else if strip a.NouveauLieu = "" then some .nouveauRequired
  else if a.AncienLieu = a.NouveauLieu then some .sameLocation
  else if a.datePriseService < a.dateAffect then some .serviceBeforeAffect
  else if today < a.dateAffect then some .futureAffectDate
  else none

/-- The three honorific values accepted for civilite. -/
def civiliteOptions : List String := ["Mr", "Mme", "Mlle"]

inductive EVErr
  | numEmpRequired
  | civiliteInvalid
  | nomRequired
  | prenomRequired
  | mailInvalid
  | posteRequired
  deriving DecidableEq

/-- Employee.validate (models/employee.py lines 69-87): the email test is
exactly mail truthy and containing the character at-sign. -/
def Employee.validate (e : Employee) : Option EVErr :=
  if strip e.numEmp = "" then some .numEmpRequired
  else if ¬ e.civilite ∈ civiliteOptions then some .civiliteInvalid
  else if strip e.nom = "" then some .nomRequired
  else if strip e.prenom = "" then some .prenomRequired
  else if e.mail = "" ∨ ¬ e.mail.data.contains '@' then some .mailInvalid
  else if strip e.poste = "" then some .posteRequired
  else none

/-! Identifier generation (base_controller.py lines 104-131).  Identifiers
are handled at the character-list level. -/

/-- Value of a decimal digit character, computed from its code point. -/
def digitVal? (c : Char) : Option Nat :=
  if 48 ≤ c.toNat ∧ c.toNat ≤ 57 then some (c.toNat - 48) else none

def digitsValAux : List Char → Nat → Option Nat
  | [], acc => some acc
  | c :: cs, acc =>
    match digitVal? c with
    | some d => digitsValAux cs (10 * acc + d)
    | none => none

/-- Value of a non-empty all-digit character list. -/
def digitsVal? (s : List Char) : Option Nat :=
  if s = [] then none else digitsValAux s 0

/-- The Python int conversion applied to an identifier suffix: an optional
sign followed by at least one decimal digit. -/
def pyInt? (s : List Char) : Option Int :=
  match s with
  | [] => none
  | c :: rest =>
    if c = '-' then (digitsVal? rest).map (fun m => -(Int.ofNat m))
    else if c = '+' then (digitsVal? rest).map Int.ofNat
    else (digitsVal? (c :: rest)).map Int.ofNat

def digitChar (d : Nat) : Char :=
  match d with
  | 0 => '0'
  | 1 => '1'
  | 2 => '2'
  | 3 => '3'
  | 4 => '4'
  | 5 => '5'
  | 6 => '6'
  | 7 => '7'
  | 8 => '8'
  | _ => '9'

/-- Decimal digits, structurally recursive on a fuel argument so that the
function reduces inside the kernel; the fuel is always sufficient when it
exceeds the number. -/
def natDigitsGo : Nat → Nat → List Char
  | 0, _ => []
  | fuel + 1, n =>
    if n < 10 then [digitChar n]
    else natDigitsGo fuel (n / 10) ++ [digitChar (n % 10)]

/-- Decimal digits of a natural number, most significant first. -/
def natDigits (n : Nat) : List Char :=
  natDigitsGo (n + 1) n

def padZeros (w : Nat) (s : List Char) : List Char :=
  List.replicate (w - s.length) '0' ++ s

/-- The Python format spec 03d: zero-padded to width 3, the sign counting
toward the width. -/
def format03 (n : Int) : List Char :=
  if n < 0 then '-' :: padZeros 2 (natDigits n.natAbs)
  else padZeros 3 (natDigits n.toNat)

/-- The numeric suffixes parsed from the existing identifiers that carry
the prefix (base_controller.py lines 118-125); an identifier that is falsy,
lacks the prefix, or has a non-numeric suffix is skipped. -/
def suffixNumbers (pre : List Char) (ids : List (List Char)) : List Int :=
  ids.filterMap (fun id =>
    if ¬ id = [] ∧ pre.isPrefixOf id then pyInt? (id.drop pre.length) else none)

/-- BaseController._get_next_id: the prefix followed by one plus the
maximal numeric suffix, zero-padded, or prefix001 when no suffix parses. -/
def getNextId (pre : List Char) (ids : List (List Char)) : List Char :=
  if ids = [] then pre ++ ['0', '0', '1']
  else
    match suffixNumbers pre ids with
    | [] => pre ++ ['0', '0', '1']
    | n :: ns => pre ++ format03 (ns.foldl max n + 1)

/-! The assignment controller (controllers/assignment_controller.py). -/

/-- Identifier generated for a new AFFECTER row when the caller omits one
(prefix A over the existing numAffect column). -/
def genNumAffect (db : DB) : String :=
  String.mk (getNextId ['A'] (db.affecter.map (fun a => a.numAffect.data)))

/-- Input dictionary of AssignmentController.create; numAffect is optional
and falsy values trigger generation. -/
structure CreateData where
  numAffect : Option String
  numEmp : String
  AncienLieu : String
  NouveauLieu : String
  dateAffect : Nat
  datePriseService : Nat
  deriving DecidableEq

/-- AssignmentController.create (lines 58-155): required-field check,
identifier generation, validation, existence checks, the origin check
against the employee's current location, then the transactional insert
plus unconditional propagation of NouveauLieu to EMPLOYE.idlieu. -/
def AssignmentController.create (db : DB) (d : CreateData) (today : Nat) :
    Except OpErr String × DB :=
  if d.numEmp = "" ∨ d.AncienLieu = "" ∨ d.NouveauLieu = "" then (.error .missingFields, db)
  else
    let numAffect :=
      match d.numAffect with
      | none => genNumAffect db
      | some s => if s = "" then genNumAffect db else s
    let a : Assignment :=
      { numAffect := strip numAffect, numEmp := strip d.numEmp,
        AncienLieu := strip d.AncienLieu, NouveauLieu := strip d.NouveauLieu,
        dateAffect := d.dateAffect, datePriseService := d.datePriseService }
    match Assignment.validate a today with
    | some v => (.error (.invalid v), db)
    | none =>
      match Employee.get db a.numEmp with
      | none => (.error .employeeNotFound, db)
      | some employee =>
        match Location.get db a.AncienLieu with
        | none => (.error .oldLocationNotFound, db)
        | some _ =>
          match Location.get db a.NouveauLieu with
          | none => (.error .newLocationNotFound, db)
          | some _ =>
            if ¬ employee.idlieu = some a.AncienLieu then (.error .locationMismatch, db)
            else
              match insertAffecter db a with
              | .error e => (.error e, db)
              | .ok db1 => (.ok a.numAffect, setIdlieu db1 a.numEmp (some a.NouveauLieu))

/-- Input dictionary of AssignmentController.update: only the keys present
in the dictionary overwrite the stored row. -/
structure UpdateData where
  numEmp : Option String
  AncienLieu : Option String
  NouveauLieu : Option String
  dateAffect : Option Nat
  datePriseService : Option Nat
  deriving DecidableEq

/-- AssignmentController.update (lines 157-261).  The method's first
statement (line 175) is self.get_by_id, whose body (line 56) evaluates
Assignment.get_assignment — an attribute defined neither on the
Assignment model nor on BaseModel (Database carries the only method of
that name, as an instance method that this expression never resolves
to) — so every call raises AttributeError before any merge, validation
or transaction.  The try block only starts at line 228, so the exception
escapes the method: no result tuple is returned and the database is
untouched.  Lines 179-261 (merge, validate, latest-row check, UPDATE,
conditional EMPLOYE update) are unreachable. -/
def AssignmentController.update (db : DB) (_assignment_id : String) (_d : UpdateData)
    (_today : Nat) : Except OpErr Unit × DB :=
  (.error .uncaughtAttributeError, db)

/-- AssignmentController.delete (lines 263-333).  Identical situation: the
first statement (line 275) is self.get_by_id, which raises AttributeError
unconditionally, so the delete/recompute logic of lines 279-333 is
unreachable, no result tuple is ever returned, and the database is
untouched. -/
def AssignmentController.delete (db : DB) (_assignment_id : String) :
    Except OpErr Unit × DB :=
  (.error .uncaughtAttributeError, db)

/-- LocationController.delete (controllers/location_controller.py lines
137-178): existence check, then the two referential pre-checks against
EMPLOYE.idlieu and the AFFECTER origin and destination columns. -/
def LocationController.delete (db : DB) (location_id : String) : Except OpErr Unit × DB :=
  match Location.get db location_id with
  | none => (.error .locationNotFound, db)
  | some _ =>
    if 0 < db.employe.countP (fun e => decide (e.idlieu = some location_id)) then
      (.error .employeeReferenced, db)
    else if 0 < db.affecter.countP (fun a =>
        decide (a.AncienLieu = location_id) || decide (a.NouveauLieu = location_id)) then
      (.error .assignmentReferenced, db)
    else
      let remaining := db.lieu.filter (fun l => decide (¬ l.idlieu = location_id))
      if db.lieu.countP (fun l => decide (l.idlieu = location_id)) = 0 then
        (.error .locationNotFound, db)
      else (.ok (), { db with lieu := remaining })

/-- Database.add_assignment (models/database.py lines 266-295): the direct
path inserts the row and overwrites EMPLOYE.idlieu inside one transaction,
with no validation and no origin check. -/
def Database.add_assignment (db : DB) (numAffect numEmp ancien_lieu nouveau_lieu : String)
    (date_affect date_prise_service : Nat) : Except OpErr Unit × DB :=
  let a : Assignment :=
    { numAffect := numAffect, numEmp := numEmp, AncienLieu := ancien_lieu,
      NouveauLieu := nouveau_lieu, dateAffect := date_affect,
      datePriseService := date_prise_service }
  match insertAffecter db a with
  | .error e => (.error e, db)
  | .ok db1 => (.ok (), setIdlieu db1 numEmp (some nouveau_lieu))

/-- EmployeeController.assign_location (controllers/employee_controller.py
lines 294-370): rejects only a destination equal to the current location;
an unassigned employee gets the sentinel UNKNOWN as origin. -/
def EmployeeController.assign_location (db : DB) (employee_id new_location_id : String)
    (assignment_date service_start_date : Nat) (assignment_id : Option String) :
    Except OpErr Unit × DB :=
  match Employee.get db employee_id with
  | none => (.error .employeeNotFound, db)
  | some employee =>
    match Location.get db new_location_id with
    | none => (.error .locationNotFound, db)
    | some _ =>
      if employee.idlieu = some new_location_id then (.error .alreadyAssigned, db)
      else
        let old_location_id := employee.idlieu.getD "UNKNOWN"
        let aid :=
          match assignment_id with
          | none => genNumAffect db
          | some s => if s = "" then genNumAffect db else s
        let a : Assignment :=
          { numAffect := aid, numEmp := employee_id, AncienLieu := old_location_id,
            NouveauLieu := new_location_id, dateAffect := assignment_date,
            datePriseService := service_start_date }
        match insertAffecter db a with
        | .error e => (.error e, db)
        | .ok db1 => (.ok (), setIdlieu db1 employee_id (some new_location_id))

/-! Seeding (models/database.py lines 55-119). -/

def seedLieux : List Location :=
  [⟨"L1", "Antananarivo", "Antananarivo"⟩,
   ⟨"L2", "Toamasina", "Toamasina"⟩,
   ⟨"L3", "Antsirabe", "Antananarivo"⟩,
   ⟨"L4", "Fianarantsoa", "Fianarantsoa"⟩,
   ⟨"L5", "Mahajanga", "Mahajanga"⟩,
   ⟨"L6", "Toliara", "Toliara"⟩,
   ⟨"L7", "Antsiranana", "Antsiranana"⟩,
   ⟨"L8", "Moramanga", "Toamasina"⟩,
   ⟨"L9", "Ambalavao", "Fianarantsoa"⟩,
   ⟨"L10", "Sambava", "Antsiranana"⟩]

def seedEmployes : List Employee :=
  [⟨"E001", "Mr", "Rakoto", "Jean", "jean.rakoto@example.com", "Manager", some "L1"⟩,
   ⟨"E002", "Mme", "Rasoa", "Marie", "marie.rasoa@example.com", "Developer", some "L1"⟩,
   ⟨"E003", "Mr", "Rabe", "Paul", "paul.rabe@example.com", "Analyst", some "L2"⟩,
   ⟨"E004", "Mlle", "Rakotomalala", "Sofia", "sofia.rakoto@example.com", "Designer", some "L3"⟩,
   ⟨"E005", "Mr", "Randria", "Jean", "jean.randria@example.com", "Tester", some "L4"⟩,
   ⟨"E006", "Mme", "Razafy", "Claire", "claire.razafy@example.com", "Developer", some "L2"⟩,
   ⟨"E007", "Mr", "Rakotondrabe", "Marc", "marc.rabe@example.com", "Manager", some "L5"⟩,
   ⟨"E008", "Mlle", "Rasolofoniaina", "Julie", "julie.rasolo@example.com", "Analyst", some "L6"⟩,
   ⟨"E009", "Mr", "Randriamanantena", "Pierre", "pierre.randria@example.com", "Developer", some "L7"⟩,
   ⟨"E010", "Mme", "Rakotovao", "Nirina", "nirina.rakoto@example.com", "Designer", some "L8"⟩]

def seedAffecter : List Assignment :=
  [⟨"A001", "E001", "L1", "L2", 20230115, 20230201⟩,
   ⟨"A002", "E002", "L1", "L3", 20230210, 20230220⟩,
   ⟨"A003", "E003", "L2", "L4", 20230305, 20230315⟩,
   ⟨"A004", "E004", "L3", "L5", 20230412, 20230422⟩,
   ⟨"A005", "E005", "L4", "L6", 20230520, 20230601⟩,
   ⟨"A006", "E006", "L2", "L7", 20230615, 20230625⟩,
   ⟨"A007", "E007", "L5", "L8", 20230710, 20230720⟩,
   ⟨"A008", "E008", "L6", "L9", 20230805, 20230815⟩,
   ⟨"A009", "E009", "L7", "L10", 20230912, 20230922⟩,
   ⟨"A010", "E010", "L8", "L1", 20231018, 20231101⟩]

/-- Database.seed_initial_data: each of the three tables receives its
sample rows exactly when that table has count zero; the three emptiness
checks are independent of one another. -/
def Database.seed_initial_data (db : DB) : DB :=
  let db1 := if db.lieu.length = 0 then { db with lieu := db.lieu ++ seedLieux } else db
  let db2 :=
    if db1.employe.length = 0 then { db1 with employe := db1.employe ++ seedEmployes } else db1
  if db2.affecter.length = 0 then { db2 with affecter := db2.affecter ++ seedAffecter } else db2

/-! Derived observations used by the theorems. -/

/-- The stored current location of one employee: none when the employee is
missing, some idlieu otherwise. -/
def empIdlieu (db : DB) (id : String) : Option (Option String) :=
  (Employee.get db id).map (fun e => e.idlieu)

/-- The denormalization invariant of the specification, decided for one
employee: EMPLOYE.idlieu equals the NouveauLieu of the most recent
remaining AFFECTER row, or NULL when no row remains. -/
def invariantHolds (db : DB) (emp : String) : Bool :=
  match Employee.get db emp with
  | none => true
  | some e => decide (e.idlieu = (latestFor db emp).map (fun a => a.NouveauLieu))

/-! Concrete database states and inputs used by closed theorems. -/

/-- Three locations, one employee currently at L2, one assignment row
dated 2024-02-01 whose destination is L2. -/
def dbPast : DB :=
  { lieu := [⟨"L1", "HQ", "North"⟩, ⟨"L2", "Branch", "South"⟩, ⟨"L3", "Annex", "East"⟩],
    employe := [⟨"E1", "Mr", "Rakoto", "Jean", "jean@example.com", "Manager", some "L2"⟩],
    affecter := [⟨"A001", "E1", "L1", "L2", 20240201, 20240205⟩] }

/-- A back-dated creation input: origin matches the employee's current
location, but the dates lie before the stored assignment. -/
def cdPast : CreateData :=
  { numAffect := some "A002", numEmp := "E1", AncienLieu := "L2", NouveauLieu := "L3",
    dateAffect := 20240101, datePriseService := 20240102 }

/-- Two employees; E1 owns the single assignment row and is stored at its
destination L2. -/
def dbMove : DB :=
  { lieu := [⟨"L1", "HQ", "North"⟩, ⟨"L2", "Branch", "South"⟩, ⟨"L3", "Annex", "East"⟩],
    employe := [⟨"E1", "Mr", "Rakoto", "Jean", "jean@example.com", "Manager", some "L2"⟩,
                ⟨"E2", "Mme", "Rasoa", "Marie", "marie@example.com", "Developer", none⟩],
    affecter := [⟨"A001", "E1", "L1", "L2", 10, 11⟩] }

/-- Update input that only reassigns the row to employee E2. -/
def udMove : UpdateData :=
  { numEmp := some "E2", AncienLieu := none, NouveauLieu := none,
    dateAffect := none, datePriseService := none }

/-- Update input that only rewrites the destination to L3. -/
def udDest : UpdateData :=
  { numEmp := none, AncienLieu := none, NouveauLieu := some "L3",
    dateAffect := none, datePriseService := none }

/-- Update input with no keys present. -/
def udNone : UpdateData :=
  { numEmp := none, AncienLieu := none, NouveauLieu := none,
    dateAffect := none, datePriseService := none }

/-- The empty database. -/
def dbEmpty : DB := { lieu := [], employe := [], affecter := [] }

/-- Creation input naming an employee that the empty database lacks. -/
def cdMissing : CreateData :=
  { numAffect := some "A001", numEmp := "E1", AncienLieu := "L1", NouveauLieu := "L2",
    dateAffect := 1, datePriseService := 2 }

/-- One location, one employee stored at it, no assignment rows. -/
def dbOneLoc : DB :=
  { lieu := [⟨"L1", "HQ", "North"⟩],
    employe := [⟨"E1", "Mr", "Rakoto", "Jean", "jean@example.com", "Manager", some "L1"⟩],
    affecter := [] }

/-- Two locations, an unassigned employee, no assignment rows. -/
def dbUnassigned : DB :=
  { lieu := [⟨"L1", "HQ", "North"⟩, ⟨"L2", "Branch", "South"⟩],
    employe := [⟨"E1", "Mr", "Rakoto", "Jean", "jean@example.com", "Manager", none⟩],
    affecter := [] }

/-- A database whose LIEU table is non-empty while EMPLOYE and AFFECTER
are empty. -/
def dbSeedLieuOnly : DB :=
  { lieu := [⟨"LX", "Somewhere", "Province"⟩], employe := [], affecter := [] }

/-- An employee record whose mail contains an at-sign but no dot at all. -/
def eNoDot : Employee :=
  ⟨"E900", "Mr", "Doe", "Jon", "jon@examplecom", "Developer", none⟩

/-- Creation input whose origin equals its destination. -/
def cdSame : CreateData :=
  { numAffect := some "A900", numEmp := "E1", AncienLieu := "L1", NouveauLieu := "L1",
    dateAffect := 1, datePriseService := 2 }

/-- Creation input whose stated origin L1 differs from the employee's
stored location L2 in dbPast. -/
def cdMismatch : CreateData :=
  { numAffect := some "A009", numEmp := "E1", AncienLieu := "L1", NouveauLieu := "L3",
    dateAffect := 5, datePriseService := 6 }

/-! Lemmas about identifier generation. -/

theorem digitVal?_digitChar {d : Nat} (h : d < 10) : digitVal? (digitChar d) = some d := by
  interval_cases d <;> decide

theorem isSome_digitVal?_digitChar (d : Nat) : (digitVal? (digitChar d)).isSome := by
  unfold digitChar
  split <;> decide

theorem digitsValAux_append (l1 l2 : List Char) (acc : Nat) :
    digitsValAux (l1 ++ l2) acc = (digitsValAux l1 acc).bind (fun v => digitsValAux l2 v) := by
  induction l1 generalizing acc with
  | nil => rfl
  | cons c cs ih =>
    simp only [List.cons_append, digitsValAux]
    cases digitVal? c with
    | none => rfl
    | some d => exact ih _

theorem natDigitsGo_ne_nil (f n : Nat) : natDigitsGo (f + 1) n ≠ [] := by
  simp only [natDigitsGo]
  split <;> simp

theorem natDigits_ne_nil (n : Nat) : natDigits n ≠ [] := natDigitsGo_ne_nil n n

theorem digitsValAux_natDigitsGo :
    ∀ fuel n acc, n < fuel →
      digitsValAux (natDigitsGo fuel n) acc =
        some (acc * 10 ^ (natDigitsGo fuel n).length + n) := by
  intro fuel
  induction fuel with
  | zero => intro n acc h; omega
  | succ f ih =>
    intro n acc h
    by_cases h10 : n < 10
    · simp only [natDigitsGo, if_pos h10, digitsValAux, digitVal?_digitChar h10]
      simp only [List.length_singleton, pow_one, Option.some.injEq]
      ring
    · simp only [natDigitsGo, if_neg h10]
      rw [digitsValAux_append]
      have hdiv : n / 10 < n := Nat.div_lt_self (by omega) (by omega)
      rw [ih (n / 10) acc (by omega)]
      have hmod : n % 10 < 10 := Nat.mod_lt _ (by omega)
      simp only [Option.some_bind, digitsValAux, digitVal?_digitChar hmod,
        List.length_append, List.length_singleton, Option.some.injEq]
      calc 10 * (acc * 10 ^ (natDigitsGo f (n / 10)).length + n / 10) + n % 10
          = acc * (10 ^ (natDigitsGo f (n / 10)).length * 10) + (10 * (n / 10) + n % 10) := by
            ring
        _ = acc * 10 ^ ((natDigitsGo f (n / 10)).length + 1) + n := by
            rw [Nat.div_add_mod, pow_succ]

theorem digitsValAux_replicate_zero (k : Nat) :
    digitsValAux (List.replicate k '0') 0 = some 0 := by
  induction k with
  | zero => rfl
  | succ k ih => simpa [List.replicate, digitsValAux, digitVal?] using ih

theorem digitsVal?_padZeros (w m : Nat) : digitsVal? (padZeros w (natDigits m)) = some m := by
  have hne : padZeros w (natDigits m) ≠ [] := by
    unfold padZeros
    simp only [ne_eq, List.append_eq_nil, not_and]
    intro _ hcontra
    exact natDigits_ne_nil m hcontra
  rw [digitsVal?, if_neg hne]
  unfold padZeros
  rw [digitsValAux_append, digitsValAux_replicate_zero]
  simp only [Option.some_bind]
  rw [natDigits, digitsValAux_natDigitsGo (m + 1) m 0 (by omega)]
  simp

theorem mem_natDigitsGo {c : Char} : ∀ {f n : Nat}, c ∈ natDigitsGo f n → (digitVal? c).isSome := by
  intro f
  induction f with
  | zero => intro n hc; simp [natDigitsGo] at hc
  | succ f ih =>
    intro n hc
    simp only [natDigitsGo] at hc
    split at hc
    · simp only [List.mem_singleton] at hc
      exact hc ▸ isSome_digitVal?_digitChar n
    · rcases List.mem_append.mp hc with h | h
      · exact ih h
      · simp only [List.mem_singleton] at h
        exact h ▸ isSome_digitVal?_digitChar (n % 10)

theorem mem_padZeros_digit {c : Char} {w m : Nat} (hc : c ∈ padZeros w (natDigits m)) :
    (digitVal? c).isSome := by
  unfold padZeros at hc
  rcases List.mem_append.mp hc with h | h
  · rw [List.eq_of_mem_replicate h]; rfl
  · exact mem_natDigitsGo h

theorem pyInt?_format03 (n : Int) : pyInt? (format03 n) = some n := by
  unfold format03
  split
  · rename_i hneg
    show (digitsVal? (padZeros 2 (natDigits n.natAbs))).map (fun m => -(Int.ofNat m)) = some n
    rw [digitsVal?_padZeros]
    simp only [Option.map_some', Option.some.injEq, Int.ofNat_eq_coe]
    omega
  · rename_i hpos
    rcases hcons : padZeros 3 (natDigits n.toNat) with _ | ⟨c, cs⟩
    · exact absurd (hcons ▸ digitsVal?_padZeros 3 n.toNat) (by simp [digitsVal?])
    · have hcmem : c ∈ padZeros 3 (natDigits n.toNat) := by rw [hcons]; exact List.mem_cons_self c cs
      have hdig := mem_padZeros_digit hcmem
      have hcm : ¬ c = '-' := by rintro rfl; simp [digitVal?] at hdig
      have hcp : ¬ c = '+' := by rintro rfl; simp [digitVal?] at hdig
      show (if c = '-' then (digitsVal? cs).map (fun m => -(Int.ofNat m))
            else if c = '+' then (digitsVal? cs).map Int.ofNat
            else (digitsVal? (c :: cs)).map Int.ofNat) = some n
      rw [if_neg hcm, if_neg hcp, ← hcons, digitsVal?_padZeros]
      simp only [Option.map_some', Option.some.injEq, Int.ofNat_eq_coe]
      omega

theorem init_le_foldl_max : ∀ (ns : List Int) (b : Int), b ≤ ns.foldl max b := by
  intro ns
  induction ns with
  | nil => intro b; exact le_refl b
  | cons m ms ih => intro b; exact le_trans (le_max_left b m) (ih (max b m))

theorem mem_le_foldl_max : ∀ (ns : List Int) (b x : Int), x ∈ ns → x ≤ ns.foldl max b := by
  intro ns
  induction ns with
  | nil => intro b x hx; simp at hx
  | cons m ms ih =>
    intro b x hx
    rcases List.mem_cons.mp hx with rfl | hx
    · exact le_trans (le_max_right b x) (init_le_foldl_max ms (max b x))
    · exact ih (max b m) x hx

theorem mem_suffixNumbers_of_append {pre tail : List Char} {ids : List (List Char)} {v : Int}
    (hmem : pre ++ tail ∈ ids) (htail : tail ≠ []) (hval : pyInt? tail = some v) :
    v ∈ suffixNumbers pre ids := by
  unfold suffixNumbers
  apply List.mem_filterMap.mpr
  refine ⟨pre ++ tail, hmem, ?_⟩
  rw [if_pos ⟨by simp [htail], List.isPrefixOf_iff_prefix.mpr (List.prefix_append pre tail)⟩]
  rw [List.drop_left, hval]

theorem getNextId_not_mem (pre : List Char) (ids : List (List Char)) :
    getNextId pre ids ∉ ids := by
  intro hmem
  unfold getNextId at hmem
  by_cases hids : ids = []
  · rw [if_pos hids] at hmem
    rw [hids] at hmem
    simp at hmem
  · rw [if_neg hids] at hmem
    cases hsn : suffixNumbers pre ids with
    | nil =>
      rw [hsn] at hmem
      have h1 : (1 : Int) ∈ suffixNumbers pre ids :=
        mem_suffixNumbers_of_append hmem (by simp) (by decide)
      rw [hsn] at h1
      simp at h1
    | cons n ns =>
      rw [hsn] at hmem
      have hfne : format03 (ns.foldl max n + 1) ≠ [] := by
        unfold format03
        split
        · simp
        · unfold padZeros
          simp only [ne_eq, List.append_eq_nil, not_and]
          intro _ hcontra
          exact natDigits_ne_nil _ hcontra
      have h1 : (ns.foldl max n + 1 : Int) ∈ suffixNumbers pre ids :=
        mem_suffixNumbers_of_append hmem hfne (pyInt?_format03 _)
      rw [hsn] at h1
      rcases List.mem_cons.mp h1 with heq | hin
      · have := init_le_foldl_max ns n
        omega
      · have := mem_le_foldl_max ns n _ hin
        omega

/-! Frame lemmas: every failing operation returns the database unchanged
(the rollback semantics of the transactions). -/

theorem create_cases (db : DB) (d : CreateData) (today : Nat) :
    (AssignmentController.create db d today).2 = db ∨
      (AssignmentController.create db d today).1.isOk = true := by
  unfold AssignmentController.create
  dsimp only
  repeat' split
  all_goals simp [Except.isOk, Except.toBool]

/-! Helper lemmas shared by the claim theorems. -/

theorem numEmp_of_get {db : DB} {id : String} {e : Employee}
    (h : Employee.get db id = some e) : e.numEmp = id := by
  unfold Employee.get at h
  have h2 := List.find?_some h
  simp only [decide_eq_true_eq] at h2
  exact h2

theorem get_setIdlieu (db : DB) (emp : String) (loc : Option String) (x : String) :
    Employee.get (setIdlieu db emp loc) x =
      (Employee.get db x).map (fun e => if e.numEmp = emp then { e with idlieu := loc } else e) := by
  unfold Employee.get setIdlieu
  dsimp only
  induction db.employe with
  | nil => rfl
  | cons e es ih =>
    have hpres : (if e.numEmp = emp then { e with idlieu := loc } else e).numEmp = e.numEmp := by
      split <;> rfl
    by_cases hx : e.numEmp = x
    · rw [List.map_cons,
        List.find?_cons_of_pos _ (by simp only [hpres, decide_eq_true_eq]; exact hx),
        List.find?_cons_of_pos _ (by simp [hx])]
      rfl
    · rw [List.map_cons,
        List.find?_cons_of_neg _ (by simp only [hpres, decide_eq_true_eq]; exact hx),
        List.find?_cons_of_neg _ (by simp [hx])]
      exact ih

/-- Database.add_assignment with a fresh primary key always inserts and
propagates, whatever the employee's stored location. -/
theorem add_assignment_eq (db : DB) (na ne al nl : String) (da dp : Nat)
    (hfresh : ∀ r ∈ db.affecter, ¬ r.numAffect = na) :
    Database.add_assignment db na ne al nl da dp =
      (.ok (), setIdlieu { db with affecter := db.affecter ++ [⟨na, ne, al, nl, da, dp⟩] }
        ne (some nl)) := by
  unfold Database.add_assignment insertAffecter
  dsimp only
  have hany : db.affecter.any (fun r => decide (r.numAffect = na)) = false := by
    rw [List.any_eq_false]
    intro r hr
    simpa using hfresh r hr
  rw [hany]
  rfl

/-- An assignment row whose origin equals its destination never passes
validation. -/
theorem validate_same_ne_none (a : Assignment) (today : Nat)
    (h : a.AncienLieu = a.NouveauLieu) : ¬ Assignment.validate a today = none := by
  unfold Assignment.validate
  repeat' split
  all_goals simp_all

/-- Contradiction form of the previous lemma, convenient for closing split
branches. -/
theorem validate_none_same_false (a : Assignment) (today : Nat)
    (hv : Assignment.validate a today = none) (h : a.AncienLieu = a.NouveauLieu) : False :=
  validate_same_ne_none a today h hv

theorem get_insert_affecter (db : DB) (l : List Assignment) (x : String) :
    Employee.get { db with affecter := l } x = Employee.get db x := rfl

/-! Claim theorems. -/

/-- Claim C1: the current-location invariant (EMPLOYE.idlieu equals the
NouveauLieu of the maximal remaining (dateAffect, datePriseService) row,
or NULL with no rows) is claimed to hold after every mutating controller
operation.  The code violates it: creating a back-dated assignment through
the controller succeeds and overwrites idlieu unconditionally, leaving it
different from the most recent row's destination.  This theorem evaluates
the controller at the failing input: the invariant holds before the
create, the create succeeds, and the invariant is false afterwards. -/
theorem C1_create_breaks_latest_invariant :
    invariantHolds dbPast "E1" = true ∧
    (AssignmentController.create dbPast cdPast 20241231).1 = .ok "A002" ∧
    invariantHolds (AssignmentController.create dbPast cdPast 20241231).2 "E1" = false := by
  decide

/-- Claim C2 (code_bug evidence): the claim says each of the controller's
create, update and delete operations applies its two mutations atomically
and returns a failure result on error.  The create path does behave so:
every failing create returns the original database.  But update and
delete raise AttributeError on every call before any transaction — they
never return a result at all (no failure tuple, and consequently also no
partial write: the database value is always the original one). -/
theorem C2_create_atomic_update_delete_crash (db : DB) (cd : CreateData) (today : Nat)
    (uid : String) (ud : UpdateData) (did : String) :
    ((AssignmentController.create db cd today).1.isOk = false →
        (AssignmentController.create db cd today).2 = db) ∧
    AssignmentController.update db uid ud today = (.error .uncaughtAttributeError, db) ∧
    AssignmentController.delete db did = (.error .uncaughtAttributeError, db) := by
  refine ⟨fun h => ?_, rfl, rfl⟩
  rcases create_cases db cd today with h2 | h2
  · exact h2
  · simp [h2] at h

/-- Witness for C2 at a concrete database: the create fails on the empty
database leaving it unchanged, and update and delete raise on it. -/
theorem C2_create_atomic_update_delete_crash_witness :
    ((AssignmentController.create dbEmpty cdMissing 5).1.isOk = false ∧
      (AssignmentController.create dbEmpty cdMissing 5).2 = dbEmpty) ∧
    AssignmentController.update dbEmpty "A001" udNone 5 =
      (.error .uncaughtAttributeError, dbEmpty) ∧
    AssignmentController.delete dbEmpty "A001" = (.error .uncaughtAttributeError, dbEmpty) := by
  have h := C2_create_atomic_update_delete_crash dbEmpty cdMissing 5 "A001" udNone "A001"
  exact ⟨⟨by decide, h.1 (by decide)⟩, h.2.1, h.2.2⟩

/-- Claim C5 counterexample: on a database whose LIEU table is non-empty
but whose EMPLOYE and AFFECTER tables are empty, the seeding step still
inserts the ten demonstration employees and ten assignments, refuting the
claim that a non-empty Location table suppresses all inserts. -/
theorem C5_seed_counterexample :
    dbSeedLieuOnly.lieu.length = 1 ∧
    (Database.seed_initial_data dbSeedLieuOnly).employe.length = 10 ∧
    (Database.seed_initial_data dbSeedLieuOnly).affecter.length = 10 := by
  decide

/-- Claim C5 amended: the seeding step works per table: each of LIEU,
EMPLOYE and AFFECTER receives its demonstration rows exactly when that
same table is empty; the emptiness of LIEU controls only the LIEU
insert. -/
theorem C5_seed_per_table (db : DB) :
    (Database.seed_initial_data db).lieu =
        (if db.lieu.length = 0 then db.lieu ++ seedLieux else db.lieu) ∧
    (Database.seed_initial_data db).employe =
        (if db.employe.length = 0 then db.employe ++ seedEmployes else db.employe) ∧
    (Database.seed_initial_data db).affecter =
        (if db.affecter.length = 0 then db.affecter ++ seedAffecter else db.affecter) := by
  unfold Database.seed_initial_data
  dsimp only
  repeat' split
  all_goals simp_all

/-- Claim C6 counterexample: employee validation accepts a mail value that
contains no dot at all (hence none in the domain), refuting the claimed
dot requirement. -/
theorem C6_email_no_dot_accepted :
    Employee.validate eNoDot = none ∧ eNoDot.mail.data.contains '.' = false := by
  decide

/-- Claim C6 amended: employee validation accepts a record exactly when
the required fields are present, the title is one of the three options,
and the mail is non-empty and contains an at-sign; no dot condition is
checked. -/
theorem C6_email_validation_characterization (e : Employee) :
    Employee.validate e = none ↔
      (¬ strip e.numEmp = "" ∧ e.civilite ∈ civiliteOptions ∧ ¬ strip e.nom = "" ∧
        ¬ strip e.prenom = "" ∧ ¬ e.mail = "" ∧ e.mail.data.contains '@' = true ∧
        ¬ strip e.poste = "") := by
  unfold Employee.validate
  repeat' split
  all_goals simp_all
  rename_i hmail
  intro h1 h2
  rcases hmail with h | h
  · exact absurd h h1
  · exact absurd h2 h

/-- Witness for C6: the characterization applied to a concrete record. -/
theorem C6_email_validation_characterization_witness :
    Employee.validate eNoDot = none :=
  (C6_email_validation_characterization eNoDot).mpr (by decide)

/-- Claim C7: the generated identifier is never one of the existing
identifiers (collision-freeness for any input list), and an empty
identifier list yields the prefix followed by 001. -/
theorem C7_identifier_generation (pre : List Char) (ids : List (List Char)) :
    getNextId pre ids ∉ ids ∧ getNextId pre [] = pre ++ ['0', '0', '1'] :=
  ⟨getNextId_not_mem pre ids, by simp [getNextId]⟩

/-- Witness for C7 at a concrete identifier list. -/
theorem C7_identifier_generation_witness :
    getNextId ['A'] [['A', '0', '0', '7'], ['A', 'b', 'c']] = ['A', '0', '0', '8'] ∧
    ¬ ['A', '0', '0', '8'] ∈ [['A', '0', '0', '7'], ['A', 'b', 'c']] := by
  have h := (C7_identifier_generation ['A'] [['A', '0', '0', '7'], ['A', 'b', 'c']]).1
  have he : getNextId ['A'] [['A', '0', '0', '7'], ['A', 'b', 'c']] = ['A', '0', '0', '8'] := by
    decide
  exact ⟨he, he ▸ h⟩

/-- Claim C4: the controller-level create path rejects any creation whose
stated origin differs from the employee's stored current location and
writes nothing, while the direct Database.add_assignment path performs no
such check: with a fresh primary key it inserts the row and overwrites the
employee's location whatever the stored location was. -/
theorem C4_origin_check_controller_vs_direct (db : DB) (d : CreateData) (today : Nat)
    (e : Employee) (na ne al nl : String) (da dp : Nat) :
    (Employee.get db (strip d.numEmp) = some e →
      ¬ e.idlieu = some (strip d.AncienLieu) →
      (AssignmentController.create db d today).1.isOk = false ∧
        (AssignmentController.create db d today).2 = db) ∧
    ((∀ r ∈ db.affecter, ¬ r.numAffect = na) →
      Database.add_assignment db na ne al nl da dp =
        (.ok (), setIdlieu { db with affecter := db.affecter ++ [⟨na, ne, al, nl, da, dp⟩] }
          ne (some nl))) := by
  constructor
  · intro hEmp hNe
    unfold AssignmentController.create
    dsimp only
    repeat' split
    all_goals simp_all [Except.isOk, Except.toBool]
  · intro hfresh
    exact add_assignment_eq db na ne al nl da dp hfresh

/-- Witness for C4: the controller refuses the mismatched origin on dbPast
and the direct path inserts there with the same mismatch. -/
theorem C4_origin_check_controller_vs_direct_witness :
    ((AssignmentController.create dbPast cdMismatch 20241231).1.isOk = false ∧
      (AssignmentController.create dbPast cdMismatch 20241231).2 = dbPast) ∧
    Database.add_assignment dbPast "A050" "E1" "L9" "L3" 5 6 =
      (.ok (), setIdlieu { dbPast with
          affecter := dbPast.affecter ++ [⟨"A050", "E1", "L9", "L3", 5, 6⟩] }
        "E1" (some "L3")) := by
  have h := C4_origin_check_controller_vs_direct dbPast cdMismatch 20241231
    ⟨"E1", "Mr", "Rakoto", "Jean", "jean@example.com", "Manager", some "L2"⟩
    "A050" "E1" "L9" "L3" 5 6
  exact ⟨h.1 (by decide) (by decide), h.2 (by decide)⟩

/-- Claim C8: deleting a location that is referenced by an employee's
current location or by an assignment row (as origin or destination) fails
with one of the two referential-integrity errors and removes or modifies
no row of any table. -/
theorem C8_location_delete_referential_integrity (db : DB) (lid : String)
    (hloc : (Location.get db lid).isSome = true)
    (href : (∃ e ∈ db.employe, e.idlieu = some lid) ∨
      (∃ a ∈ db.affecter, a.AncienLieu = lid ∨ a.NouveauLieu = lid)) :
    ((LocationController.delete db lid).1 = .error .employeeReferenced ∨
      (LocationController.delete db lid).1 = .error .assignmentReferenced) ∧
    (LocationController.delete db lid).2 = db := by
  unfold LocationController.delete
  rcases hsome : Location.get db lid with _ | loc
  · rw [hsome] at hloc
    simp at hloc
  · dsimp only
    by_cases h1 : 0 < db.employe.countP (fun e => decide (e.idlieu = some lid))
    · rw [if_pos h1]
      exact ⟨Or.inl rfl, rfl⟩
    · rw [if_neg h1]
      have h2 : 0 < db.affecter.countP
          (fun a => decide (a.AncienLieu = lid) || decide (a.NouveauLieu = lid)) := by
        rcases href with ⟨e, he, hel⟩ | ⟨a, ha, hal⟩
        · exact absurd (List.countP_pos_iff.mpr ⟨e, he, by simp [hel]⟩) h1
        · exact List.countP_pos_iff.mpr ⟨a, ha, by rcases hal with h | h <;> simp [h]⟩
      rw [if_pos h2]
      exact ⟨Or.inr rfl, rfl⟩

/-- Witness for C8: deleting L1 while employee E1 is stored there. -/
theorem C8_location_delete_referential_integrity_witness :
    ((LocationController.delete dbOneLoc "L1").1 = .error .employeeReferenced ∨
      (LocationController.delete dbOneLoc "L1").1 = .error .assignmentReferenced) ∧
    (LocationController.delete dbOneLoc "L1").2 = dbOneLoc :=
  C8_location_delete_referential_integrity dbOneLoc "L1" (by decide)
    (Or.inl ⟨⟨"E1", "Mr", "Rakoto", "Jean", "jean@example.com", "Manager", some "L1"⟩,
      by decide, by decide⟩)

/-- Claim C9 counterexample: the direct Database.add_assignment path
accepts an assignment whose origin equals its destination: on dbOneLoc it
reports success and the stored AFFECTER table then contains a row with
equal origin and destination, refuting the claim that every creation path
rejects such input and writes nothing. -/
theorem C9_same_location_direct_counterexample :
    (Database.add_assignment dbOneLoc "A900" "E1" "L1" "L1" 1 2).1 = .ok () ∧
    (Database.add_assignment dbOneLoc "A900" "E1" "L1" "L1" 1 2).2.affecter.any
        (fun a => decide (a.AncienLieu = a.NouveauLieu)) = true := by
  decide

/-- Claim C9 amended: the controller-level create path always rejects an
origin equal to the destination with a missing-field or validation error
and writes nothing, and assign_location rejects a destination equal to the
employee's stored location; the direct Database.add_assignment path
performs no origin/destination comparison and inserts with any fresh
key. -/
theorem C9_same_location_amended (db : DB) (d : CreateData) (today : Nat)
    (eid nl : String) (da dp : Nat) (aid : Option String) (e : Employee)
    (na ne al : String) :
    (strip d.AncienLieu = strip d.NouveauLieu →
      ((AssignmentController.create db d today).1 = .error .missingFields ∨
        ∃ v, (AssignmentController.create db d today).1 = .error (.invalid v)) ∧
      (AssignmentController.create db d today).2 = db) ∧
    (Employee.get db eid = some e → e.idlieu = some nl →
      (Location.get db nl).isSome = true →
      EmployeeController.assign_location db eid nl da dp aid = (.error .alreadyAssigned, db)) ∧
    ((∀ r ∈ db.affecter, ¬ r.numAffect = na) →
      (Database.add_assignment db na ne al al da dp).1 = .ok ()) := by
  refine ⟨fun hEq => ?_, fun hE hcur hl => ?_, fun hfresh => ?_⟩
  · unfold AssignmentController.create
    dsimp only
    repeat' split
    all_goals first
      | exact ⟨Or.inl rfl, rfl⟩
      | exact ⟨Or.inr ⟨_, rfl⟩, rfl⟩
      | exact (validate_none_same_false _ _ (by assumption) hEq).elim
  · unfold EmployeeController.assign_location
    rw [hE]
    dsimp only
    rcases hls : Location.get db nl with _ | loc
    · rw [hls] at hl
      simp at hl
    · dsimp only
      rw [if_pos hcur]
  · rw [add_assignment_eq db na ne al al da dp hfresh]

/-- Witness for C9 at concrete databases: the controller rejects origin
equal to destination, assign_location rejects the redundant destination,
and the direct path succeeds. -/
theorem C9_same_location_amended_witness :
    (((AssignmentController.create dbOneLoc cdSame 5).1 = .error .missingFields ∨
        ∃ v, (AssignmentController.create dbOneLoc cdSame 5).1 = .error (.invalid v)) ∧
      (AssignmentController.create dbOneLoc cdSame 5).2 = dbOneLoc) ∧
    EmployeeController.assign_location dbOneLoc "E1" "L1" 1 2 (some "A901") =
      (.error .alreadyAssigned, dbOneLoc) ∧
    (Database.add_assignment dbOneLoc "A902" "E1" "L5" "L5" 1 2).1 = .ok () := by
  have h := C9_same_location_amended dbOneLoc cdSame 5 "E1" "L1" 1 2 (some "A901")
    ⟨"E1", "Mr", "Rakoto", "Jean", "jean@example.com", "Manager", some "L1"⟩
    "A902" "E1" "L5"
  exact ⟨h.1 (by decide), h.2.1 (by decide) (by decide) (by decide), h.2.2 (by decide)⟩

/-- Claim C10: for an employee whose stored current location is NULL,
assign_location with an existing destination and a fresh non-empty
assignment identifier succeeds, inserts an AFFECTER row whose AncienLieu
is the literal string UNKNOWN, and sets the employee's stored location to
the destination. -/
theorem C10_unknown_origin_sentinel (db : DB) (eid nl : String) (da dp : Nat) (aid : String)
    (e : Employee) (hE : Employee.get db eid = some e) (hnone : e.idlieu = none)
    (hl : (Location.get db nl).isSome = true) (haid : ¬ aid = "")
    (hfresh : ∀ r ∈ db.affecter, ¬ r.numAffect = aid) :
    (EmployeeController.assign_location db eid nl da dp (some aid)).1 = .ok () ∧
    (EmployeeController.assign_location db eid nl da dp (some aid)).2.affecter =
      db.affecter ++ [⟨aid, eid, "UNKNOWN", nl, da, dp⟩] ∧
    empIdlieu (EmployeeController.assign_location db eid nl da dp (some aid)).2 eid =
      some (some nl) ∧
    Location.get (EmployeeController.assign_location db eid nl da dp (some aid)).2 "UNKNOWN" =
      Location.get db "UNKNOWN" := by
  unfold EmployeeController.assign_location
  rw [hE]
  dsimp only
  rcases hls : Location.get db nl with _ | loc
  · rw [hls] at hl
    simp at hl
  · dsimp only
    rw [if_neg (by simp [hnone]), hnone]
    dsimp only [Option.getD]
    rw [if_neg haid]
    have hany : db.affecter.any (fun r => decide (r.numAffect = aid)) = false := by
      rw [List.any_eq_false]
      intro r hr
      simpa using hfresh r hr
    unfold insertAffecter
    rw [hany, if_neg (by simp)]
    refine ⟨rfl, rfl, ?_, rfl⟩
    unfold empIdlieu
    rw [get_setIdlieu, get_insert_affecter, hE]
    have he2 := numEmp_of_get hE
    simp [he2]

/-- Witness for C10: the unassigned employee of dbUnassigned moved to L2
gets an AFFECTER row whose origin is UNKNOWN. -/
theorem C10_unknown_origin_sentinel_witness :
    (EmployeeController.assign_location dbUnassigned "E1" "L2" 3 4 (some "A100")).1 = .ok () ∧
    (EmployeeController.assign_location dbUnassigned "E1" "L2" 3 4 (some "A100")).2.affecter =
      dbUnassigned.affecter ++ [⟨"A100", "E1", "UNKNOWN", "L2", 3, 4⟩] ∧
    empIdlieu (EmployeeController.assign_location dbUnassigned "E1" "L2" 3 4 (some "A100")).2
      "E1" = some (some "L2") ∧
    Location.get (EmployeeController.assign_location dbUnassigned "E1" "L2" 3 4
      (some "A100")).2 "UNKNOWN" = Location.get dbUnassigned "UNKNOWN" :=
  C10_unknown_origin_sentinel dbUnassigned "E1" "L2" 3 4 "A100"
    ⟨"E1", "Mr", "Rakoto", "Jean", "jean@example.com", "Manager", none⟩
    (by decide) (by decide) (by decide) (by decide) (by decide)

/-- Claim C3 counterexample: at dbMove the edited row A001 would, after
an edit that only rewrites its destination to L3, still be employee E1's
most-recent (indeed only) row, so the claim prescribes that E1's stored
location becomes L3; and an edit that moves the row to E2 obliges, per
the claim, a recomputation of E1's location to NULL.  The controller does
neither: both calls raise AttributeError at their first step and leave
the whole database — in particular E1's stored location L2 — unchanged. -/
theorem C3_update_crash_counterexample :
    AssignmentController.update dbMove "A001" udDest 100 =
      (.error .uncaughtAttributeError, dbMove) ∧
    AssignmentController.update dbMove "A001" udMove 100 =
      (.error .uncaughtAttributeError, dbMove) ∧
    empIdlieu dbMove "E1" = some (some "L2") :=
  ⟨rfl, rfl, by decide⟩

/-- Claim C3 amended: assignment update through the controller performs
no propagation and no recomputation at all: every call raises
AttributeError at its first step (self.get_by_id evaluates
Assignment.get_assignment, which no class defines) before any validation
or write, so the database is returned unchanged and every employee's
stored current-location field is exactly what it was. -/
theorem C3_update_never_propagates (db : DB) (assignment_id : String) (d : UpdateData)
    (today : Nat) (x : String) :
    AssignmentController.update db assignment_id d today =
      (.error .uncaughtAttributeError, db) ∧
    empIdlieu (AssignmentController.update db assignment_id d today).2 x = empIdlieu db x :=
  ⟨rfl, rfl⟩

end Affectation
